import Mathlib

/-!
Verification of the TileIntel MVP calculator (`src/app.py`).

Numeric model: Python floats are modelled as exact rationals (`ℚ`);
Python's builtin `round` (round-half-to-even, a.k.a. banker's rounding)
is modelled by `pyRound`, and `round(x, n)` by scaling before/after.
Python `int` results are modelled as `ℤ`.
-/

section

-- Batteries marks the arithmetic on `Rat` irreducible; re-enable unfolding
-- so that concrete instances of the embedded calculator evaluate by `decide`.
attribute [local semireducible] Rat.mul Rat.inv Rat.add Rat.sub

/-- Kernel-computable floor of a rational (agrees with `Int.floor`,
see `ratFloor_eq`). -/
def ratFloor (x : ℚ) : ℤ := x.num / x.den

theorem ratFloor_eq (x : ℚ) : ratFloor x = ⌊x⌋ := Rat.floor_def.symm

/-- Python's builtin one-argument `round`: round to nearest integer, ties
to the even integer (banker's rounding).  The fractional part
`x - ⌊x⌋ = (x.num - ⌊x⌋·x.den)/x.den` is compared with `1/2` using
integer arithmetic so that the kernel can evaluate it. -/
def pyRound (x : ℚ) : ℤ :=
  if 2 * (x.num - ratFloor x * x.den) < (x.den : ℤ) then ratFloor x
  else if (x.den : ℤ) < 2 * (x.num - ratFloor x * x.den) then ratFloor x + 1
  else if ratFloor x % 2 = 0 then ratFloor x else ratFloor x + 1

/-- Python's `max(a, b)` on two numbers (returns `b` exactly when `a < b`). -/
def pymax (a b : ℚ) : ℚ := if a < b then b else a

theorem pymax_eq_max (a b : ℚ) : pymax a b = max a b := by
  unfold pymax
  rcases lt_or_le a b with h | h
  · rw [if_pos h, max_eq_right (le_of_lt h)]
  · rw [if_neg (not_lt.mpr h), max_eq_left h]

/-- Python's `round(x, 1)`: round to one decimal place, ties to even. -/
def pyRound1 (x : ℚ) : ℚ :=
  (pyRound (10 * x) : ℚ) / 10

/-- Python's `round(x, 2)`: round to two decimal places, ties to even. -/
def pyRound2 (x : ℚ) : ℚ :=
  (pyRound (100 * x) : ℚ) / 100

-- The integer comparisons in `pyRound` express the usual comparison of the
-- fractional part with 1/2.

theorem frac_lt_iff (x : ℚ) :
    2 * (x.num - ⌊x⌋ * x.den) < (x.den : ℤ) ↔ x - (⌊x⌋ : ℚ) < 1/2 := by
  have hd : (0:ℚ) < (x.den : ℚ) := by exact_mod_cast x.pos
  have hnum : (x.num : ℚ) = x * (x.den : ℚ) :=
    (div_eq_iff (ne_of_gt hd)).mp (Rat.num_div_den x)
  constructor
  · intro h
    have h' : 2 * ((x.num : ℚ) - (⌊x⌋ : ℚ) * (x.den : ℚ)) < (x.den : ℚ) := by
      exact_mod_cast h
    rw [hnum] at h'
    rw [← mul_lt_mul_right hd]
    ring_nf
    ring_nf at h'
    linarith
  · intro h
    have h' : 2 * ((x.num : ℚ) - (⌊x⌋ : ℚ) * (x.den : ℚ)) < (x.den : ℚ) := by
      rw [hnum]
      rw [← mul_lt_mul_right hd] at h
      ring_nf at h
      ring_nf
      linarith
    exact_mod_cast h'

theorem frac_gt_iff (x : ℚ) :
    (x.den : ℤ) < 2 * (x.num - ⌊x⌋ * x.den) ↔ 1/2 < x - (⌊x⌋ : ℚ) := by
  have hd : (0:ℚ) < (x.den : ℚ) := by exact_mod_cast x.pos
  have hnum : (x.num : ℚ) = x * (x.den : ℚ) :=
    (div_eq_iff (ne_of_gt hd)).mp (Rat.num_div_den x)
  constructor
  · intro h
    have h' : (x.den : ℚ) < 2 * ((x.num : ℚ) - (⌊x⌋ : ℚ) * (x.den : ℚ)) := by
      exact_mod_cast h
    rw [hnum] at h'
    rw [← mul_lt_mul_right hd]
    ring_nf
    ring_nf at h'
    linarith
  · intro h
    have h' : (x.den : ℚ) < 2 * ((x.num : ℚ) - (⌊x⌋ : ℚ) * (x.den : ℚ)) := by
      rw [hnum]
      rw [← mul_lt_mul_right hd] at h
      ring_nf at h
      ring_nf
      linarith
    exact_mod_cast h'

/-- Case analysis for `pyRound` in terms of the fractional part. -/
theorem pyRound_spec (x : ℚ) :
    (x - (⌊x⌋ : ℚ) < 1/2 ∧ pyRound x = ⌊x⌋)
    ∨ (1/2 < x - (⌊x⌋ : ℚ) ∧ pyRound x = ⌊x⌋ + 1)
    ∨ (x - (⌊x⌋ : ℚ) = 1/2 ∧ ⌊x⌋ % 2 = 0 ∧ pyRound x = ⌊x⌋)
    ∨ (x - (⌊x⌋ : ℚ) = 1/2 ∧ ⌊x⌋ % 2 ≠ 0 ∧ pyRound x = ⌊x⌋ + 1) := by
  unfold pyRound
  rw [ratFloor_eq]
  by_cases h1 : 2 * (x.num - ⌊x⌋ * x.den) < (x.den : ℤ)
  · left
    exact ⟨(frac_lt_iff x).mp h1, by rw [if_pos h1]⟩
  · by_cases h2 : (x.den : ℤ) < 2 * (x.num - ⌊x⌋ * x.den)
    · right; left
      exact ⟨(frac_gt_iff x).mp h2, by rw [if_neg h1, if_pos h2]⟩
    · have htie : x - (⌊x⌋ : ℚ) = 1/2 := by
        have ha : ¬ (x - (⌊x⌋ : ℚ) < 1/2) := fun hc => h1 ((frac_lt_iff x).mpr hc)
        have hb : ¬ (1/2 < x - (⌊x⌋ : ℚ)) := fun hc => h2 ((frac_gt_iff x).mpr hc)
        linarith [not_lt.mp ha, not_lt.mp hb]
      by_cases h3 : ⌊x⌋ % 2 = 0
      · right; right; left
        exact ⟨htie, h3, by rw [if_neg h1, if_neg h2, if_pos h3]⟩
      · right; right; right
        exact ⟨htie, h3, by rw [if_neg h1, if_neg h2, if_neg h3]⟩

theorem floor_le_pyRound (x : ℚ) : ⌊x⌋ ≤ pyRound x := by
  rcases pyRound_spec x with ⟨_, h⟩ | ⟨_, h⟩ | ⟨_, _, h⟩ | ⟨_, _, h⟩ <;> omega

theorem pyRound_le_floor_add_one (x : ℚ) : pyRound x ≤ ⌊x⌋ + 1 := by
  rcases pyRound_spec x with ⟨_, h⟩ | ⟨_, h⟩ | ⟨_, _, h⟩ | ⟨_, _, h⟩ <;> omega

theorem pyRound_nonneg {x : ℚ} (hx : 0 ≤ x) : 0 ≤ pyRound x := by
  have h1 : (0 : ℤ) ≤ ⌊x⌋ := by
    exact_mod_cast Int.le_floor.mpr (by exact_mod_cast hx)
  have h2 := floor_le_pyRound x
  omega

theorem pyRound_zero : pyRound 0 = 0 := by decide

theorem pyRound1_zero : pyRound1 0 = 0 := by decide

theorem pyRound2_zero : pyRound2 0 = 0 := by decide

theorem pyRound_mono {x y : ℚ} (hxy : x ≤ y) : pyRound x ≤ pyRound y := by
  have hf : ⌊x⌋ ≤ ⌊y⌋ := Int.floor_mono hxy
  rcases lt_or_eq_of_le hf with hlt | heq
  · have h1 := pyRound_le_floor_add_one x
    have h2 := floor_le_pyRound y
    omega
  · have hcast : ((⌊x⌋ : ℤ) : ℚ) = ((⌊y⌋ : ℤ) : ℚ) := by rw [heq]
    rcases pyRound_spec x with ⟨h1, h2⟩ | ⟨h1, h2⟩ | ⟨h1, h3, h2⟩ | ⟨h1, h3, h2⟩ <;>
      rcases pyRound_spec y with ⟨g1, g2⟩ | ⟨g1, g2⟩ | ⟨g1, g3, g2⟩ | ⟨g1, g3, g2⟩ <;>
      rw [h2, g2] <;>
      first
        | omega
        | (exfalso; linarith)

/-- Embedding of `calc_tiles` (`src/app.py` lines 35-41): tile area from mm
dimensions, guard on non-positive tile area, then
`int(round(base * (1 + waste_pct / 100.0)))`. -/
def calc_tiles (area_m2 waste_pct tile_len_mm tile_w_mm : ℚ) : ℤ :=
  if (tile_len_mm / 1000) * (tile_w_mm / 1000) ≤ 0 then 0
  else pyRound ((area_m2 / ((tile_len_mm / 1000) * (tile_w_mm / 1000))) * (1 + waste_pct / 100))

/-- Embedding of `calc_primer_l` (`src/app.py` lines 43-46):
`round(area_m2 / primer_cov_m2_per_l, 2)` behind a non-positive guard. -/
def calc_primer_l (area_m2 primer_cov_m2_per_l : ℚ) : ℚ :=
  if primer_cov_m2_per_l ≤ 0 then 0
  else pyRound2 (area_m2 / primer_cov_m2_per_l)

/-- Embedding of `calc_adhesive_bags` (`src/app.py` lines 48-51):
`int(round(area_m2 / adhesive_cov_m2_per_bag))` behind a guard. -/
def calc_adhesive_bags (area_m2 adhesive_cov_m2_per_bag : ℚ) : ℤ :=
  if adhesive_cov_m2_per_bag ≤ 0 then 0
  else pyRound (area_m2 / adhesive_cov_m2_per_bag)

/-- Embedding of `calc_grout_bags` (`src/app.py` lines 53-56):
`int(round(area_m2 / grout_cov_m2_per_bag))` behind a guard. -/
def calc_grout_bags (area_m2 grout_cov_m2_per_bag : ℚ) : ℤ :=
  if grout_cov_m2_per_bag ≤ 0 then 0
  else pyRound (area_m2 / grout_cov_m2_per_bag)

/-- Embedding of `calc_levelling_bags` (`src/app.py` lines 58-63):
`round((area_m2 * max(0.0, avg_depth_mm)) / bag_coverage_m2_per_mm, 1)`
behind a guard. -/
def calc_levelling_bags (area_m2 avg_depth_mm bag_coverage_m2_per_mm : ℚ) : ℚ :=
  if bag_coverage_m2_per_mm ≤ 0 then 0
  else pyRound1 ((area_m2 * pymax 0 avg_depth_mm) / bag_coverage_m2_per_mm)


/-- Sidebar default for "Average levelling depth (mm)" (`src/app.py` line 226). -/
def default_levelling_depth_mm : ℚ := 3

/-- Sidebar default for "Levelling coverage (m2*mm / bag)" (`src/app.py` line 233). -/
def default_bag_coverage_m2_per_mm : ℚ := 13

/-- Levelling bag count as the app computes it (`src/app.py` line 255):
`calc_levelling_bags(area_m2, levelling_depth_mm, bag_coverage_m2_per_mm)`.
The substrate text input (line 223) is part of the job but does not feed
this computation; it is carried here to state substrate (in)dependence. -/
def app_levelling_bags (substrate : String)
    (area_m2 levelling_depth_mm bag_coverage_m2_per_mm : ℚ) : ℚ :=
  calc_levelling_bags area_m2 levelling_depth_mm bag_coverage_m2_per_mm

/-- Per-character replacement table of `_to_ascii` (`src/app.py` lines 19-25):
the listed punctuation is substituted, any other character is returned
unchanged (`repl.get(ch, ch)`). -/
def asciiRepl (c : Char) : String :=
  if c = '—' then "-"
  else if c = '–' then "-"
  else if c = '•' then "-"
  else if c = '“' then "\x22"
  else if c = '”' then "\x22"
  else if c = '‘' then "\x27"
  else if c = '’' then "\x27"
  else if c = '…' then "..."
  else if c = '×' then "x"
  else if c = '™' then "(TM)"
  else if c = '®' then "(R)"
  else if c = '°' then " degrees"
  else String.singleton c

/-- Embedding of `_to_ascii` (`src/app.py` lines 15-25) on strings:
`"".join(repl.get(ch, ch) for ch in str(s))`.  (The `None` input case of the
Python function returns `""` and is outside the string-to-string model.) -/
def to_ascii (s : String) : String :=
  String.join (s.toList.map asciiRepl)

/-- The characters that `_to_ascii` replaces (the keys of `repl`). -/
def replacedChars : List Char :=
  ['—', '–', '•', '“', '”', '‘', '’', '…', '×', '™', '®', '°']

/-- Whether a string encodes in the document charset: the final
`pdf.output(dest="S").encode("latin-1")` (`src/app.py` line 195) supports
exactly the code points below 256. -/
def encodesLatin1 (s : String) : Bool :=
  s.toList.all (fun c => decide (c.toNat ≤ 255))

/-- Toolkit operations issued by the renderer (deep embedding of the FPDF
calls made by `row` in `generate_pdf`). -/
inductive PdfOp where
  | setFont (family style : String) (size : ℚ)
  | cellOp (w h : ℚ) (txt align : String)
  | multiCellOp (w h : ℚ) (txt : String)
  deriving DecidableEq

/-- Embedding of the nested `row` helper of `generate_pdf`
(`src/app.py` lines 134-138): bold label in a fixed 45mm cell, then the
normalized value in a `multi_cell` of width 0 (rest of the line). -/
def row (label : String) (value : Option String) : List PdfOp :=
  [PdfOp.setFont "Helvetica" "B" 11,
   PdfOp.cellOp 45 6 (to_ascii (label ++ ": ")) "R",
   PdfOp.setFont "Helvetica" "" 11,
   PdfOp.multiCellOp 0 6 (to_ascii (value.getD ""))]

/-- Texts handed to the toolkit via `multi_cell` in a list of operations. -/
def multiCellTexts (ops : List PdfOp) : List String :=
  ops.filterMap (fun op =>
    match op with
    | PdfOp.multiCellOp _ _ t => some t
    | _ => none)

/-- Width parameters handed to the toolkit via `multi_cell`. -/
def multiCellWidths (ops : List PdfOp) : List ℚ :=
  ops.filterMap (fun op =>
    match op with
    | PdfOp.multiCellOp w _ _ => some w
    | _ => none)

/-- An uploaded file: declared media type, file name, raw content bytes
(opaque to the model). -/
structure Upload where
  type : String
  name : String
  bytes : List Nat
  deriving DecidableEq

/-- A decoded raster image: its color mode and opaque pixel data. -/
structure Img where
  mode : String
  data : Nat
  deriving DecidableEq

/-- The `img.convert("RGB")` normalization step of `_add_uploaded_images`
(`src/app.py` lines 104-105): identity on RGB images, otherwise the same
image in RGB mode. -/
def convertRGB (img : Img) : Img :=
  if img.mode = "RGB" then img else Img.mk "RGB" img.data

/-- Bool test for list-of-char containment (used for `"pdf" in type.lower()`). -/
def startsWithChars : List Char → List Char → Bool
  | [], _ => true
  | _ :: _, [] => false
  | p :: ps, c :: cs => p == c && startsWithChars ps cs

/-- Whether `pat` occurs as a contiguous run inside `l`. -/
def containsChars (pat : List Char) : List Char → Bool
  | [] => pat.isEmpty
  | c :: rest => startsWithChars pat (c :: rest) || containsChars pat rest

/-- Python's `pat in s` on strings. -/
def strContains (s pat : String) : Bool :=
  containsChars pat.toList s.toList

/-- Python's `s.lower()` (media types are ASCII, where `Char.toLower`
agrees with Python). -/
def strToLower (s : String) : String :=
  String.mk (s.toList.map Char.toLower)

/-- Embedding of `_pil_image_from_upload` (`src/app.py` lines 79-91).
The PIL decode attempt is a parameter `decode`; a `none` result stands
for `UnidentifiedImageError` or any other exception (both return `None`).
Uploads with a truthy type containing "pdf" are rejected before decoding. -/
def pilImageFromUpload (decode : Upload → Option Img) (u : Upload) : Option Img :=
  if (u.type != "") && strContains (strToLower u.type) "pdf" then none
  else decode u

/-- One image embedded in the output: caption name, the image, display width. -/
structure Embedded where
  name : String
  img : Img
  width : ℚ
  deriving DecidableEq

/-- Embedding of `_add_uploaded_images` (`src/app.py` lines 93-115): per
upload, try to decode; skip on `none`; convert to RGB and embed with
`pdf.image(tmp_path, w=160)`. -/
def addUploadedImages (decode : Upload → Option Img) (uploads : List Upload) :
    List Embedded :=
  uploads.filterMap (fun u =>
    (pilImageFromUpload decode u).map
      (fun img => Embedded.mk u.name (convertRGB img) 160))

-- ---------------------------------------------------------------------------
-- Claims about the quantity calculator
-- ---------------------------------------------------------------------------

/-- C1 counterexample: at area 1 m2, tile 1000x1000 mm, waste 10 percent, the
code returns `int(round(1.1)) = 1` while the claimed
`ceil((area/tile_area)*(1+waste_fraction))` is 2. -/
theorem C1_tiles_not_ceil :
    calc_tiles 1 10 1000 1000
      ≠ ⌈((1 : ℚ) / ((1000 / 1000) * (1000 / 1000))) * (1 + 10 / 100)⌉ := by
  have h1 : calc_tiles 1 10 1000 1000 = 1 := by decide
  have h2 : ⌈((1 : ℚ) / ((1000 / 1000) * (1000 / 1000))) * (1 + 10 / 100)⌉ = 2 := by
    norm_num [Int.ceil_eq_iff]
  omega

/-- C1 (amended): for every positive area, tile width and height, and waste
percentage, the tile count equals Python round-half-to-even of
`(area / tile_area) * (1 + waste_pct/100)`, with
`tile_area = (width_mm/1000)*(height_mm/1000)` — nearest-integer rounding,
not the ceiling. -/
theorem C1_tiles_round (area waste len w : ℚ)
    (harea : 0 < area) (hlen : 0 < len) (hw : 0 < w) (hwaste : 0 < waste) :
    calc_tiles area waste len w
      = pyRound ((area / ((len / 1000) * (w / 1000))) * (1 + waste / 100)) := by
  have hpos : 0 < (len / 1000) * (w / 1000) := by positivity
  unfold calc_tiles
  rw [if_neg (not_le.mpr hpos)]

/-- C1 witness: `C1_tiles_round` at the app defaults (50 m2, 600x600, 10 %). -/
theorem C1_tiles_round_witness :
    calc_tiles 50 10 600 600
      = pyRound ((50 / ((600 / 1000) * (600 / 1000))) * (1 + 10 / 100)) :=
  C1_tiles_round 50 10 600 600 (by norm_num) (by norm_num) (by norm_num)
    (by norm_num)

/-- C2 counterexample: area 50 m2 with adhesive coverage 4 m2/bag gives the
continuous quantity 12.5; the code returns `int(round(12.5)) = 12` (ties to
even), not `ceil(12.5) = 13`. -/
theorem C2_bags_not_ceil : calc_adhesive_bags 50 4 ≠ ⌈(50 : ℚ) / 4⌉ := by
  have h1 : calc_adhesive_bags 50 4 = 12 := by decide
  have h2 : ⌈(50 : ℚ) / 4⌉ = 13 := by norm_num [Int.ceil_eq_iff]
  omega

/-- C2 (amended): for every non-negative area and positive coverage, the
adhesive and grout bag counts are integers ≥ 0 and equal Python
round-half-to-even of (area / coverage) — not its ceiling; the spec example
(area 50, adhesive coverage 5) still yields 10 bags. -/
theorem C2_bags_round (area cov : ℚ) (harea : 0 ≤ area) (hcov : 0 < cov) :
    (0 ≤ calc_adhesive_bags area cov ∧ 0 ≤ calc_grout_bags area cov)
    ∧ calc_adhesive_bags area cov = pyRound (area / cov)
    ∧ calc_grout_bags area cov = pyRound (area / cov)
    ∧ calc_adhesive_bags 50 5 = 10 := by
  have hng : ¬ cov ≤ 0 := not_le.mpr hcov
  have hq : 0 ≤ area / cov := div_nonneg harea (le_of_lt hcov)
  refine ⟨⟨?_, ?_⟩, ?_, ?_, by decide⟩
  · unfold calc_adhesive_bags
    rw [if_neg hng]
    exact pyRound_nonneg hq
  · unfold calc_grout_bags
    rw [if_neg hng]
    exact pyRound_nonneg hq
  · unfold calc_adhesive_bags
    rw [if_neg hng]
  · unfold calc_grout_bags
    rw [if_neg hng]

/-- C2 witness: `C2_bags_round` at the spec example inputs. -/
theorem C2_bags_round_witness :
    (0 ≤ calc_adhesive_bags 50 5 ∧ 0 ≤ calc_grout_bags 50 5)
    ∧ calc_adhesive_bags 50 5 = pyRound (50 / 5)
    ∧ calc_grout_bags 50 5 = pyRound (50 / 5)
    ∧ calc_adhesive_bags 50 5 = 10 :=
  C2_bags_round 50 5 (by norm_num) (by norm_num)

/-- C3 counterexample: area 5 m2, tile 1000x2000 mm (tile area 2 m2), waste
0 percent: the code returns `int(round(2.5)) = 2`, strictly below
`ceil(5/2) = 3`, so the count is not bounded below by the exact ceiling. -/
theorem C3_not_ceil_lower_bound :
    ¬ (⌈(5 : ℚ) / ((1000 / 1000) * (2000 / 1000))⌉ ≤ calc_tiles 5 0 1000 2000) := by
  have h1 : calc_tiles 5 0 1000 2000 = 2 := by decide
  have h2 : ⌈(5 : ℚ) / ((1000 / 1000) * (2000 / 1000))⌉ = 3 := by
    norm_num [Int.ceil_eq_iff]
  omega

/-- C3 (amended): for every positive area and tile dimensions and
non-negative waste percentage, the tile count is at least Python
round-half-to-even of the exact count `area / tile_area`: the waste
allowance never reduces the count below the rounded exact count (though it
can be below the ceiling). -/
theorem C3_tiles_lower_bound (area waste len w : ℚ)
    (harea : 0 < area) (hlen : 0 < len) (hw : 0 < w) (hwaste : 0 ≤ waste) :
    pyRound (area / ((len / 1000) * (w / 1000))) ≤ calc_tiles area waste len w := by
  have hpos : 0 < (len / 1000) * (w / 1000) := by positivity
  have hbase : 0 ≤ area / ((len / 1000) * (w / 1000)) := by positivity
  unfold calc_tiles
  rw [if_neg (not_le.mpr hpos)]
  apply pyRound_mono
  nlinarith [mul_nonneg hbase hwaste]

/-- C3 witness: `C3_tiles_lower_bound` at area 5, tile 1000x2000, waste 0. -/
theorem C3_tiles_lower_bound_witness :
    pyRound (5 / ((1000 / 1000) * (2000 / 1000))) ≤ calc_tiles 5 0 1000 2000 :=
  C3_tiles_lower_bound 5 0 1000 2000 (by norm_num) (by norm_num) (by norm_num)
    (by norm_num)

/-- C4: with area 0, the tile count, primer litres, adhesive bags, grout bags
and levelling bags are all 0, for any positive tile dimensions, coverage
rates and levelling depth. -/
theorem C4_zero_area (waste len w depth pcov acov gcov lcov : ℚ)
    (hlen : 0 < len) (hw : 0 < w) (hdepth : 0 < depth)
    (hpcov : 0 < pcov) (hacov : 0 < acov) (hgcov : 0 < gcov) (hlcov : 0 < lcov) :
    calc_tiles 0 waste len w = 0
    ∧ calc_primer_l 0 pcov = 0
    ∧ calc_adhesive_bags 0 acov = 0
    ∧ calc_grout_bags 0 gcov = 0
    ∧ calc_levelling_bags 0 depth lcov = 0 := by
  refine ⟨?_, ?_, ?_, ?_, ?_⟩
  · unfold calc_tiles
    split_ifs with h
    · rfl
    · rw [zero_div, zero_mul, pyRound_zero]
  · unfold calc_primer_l
    rw [if_neg (not_le.mpr hpcov), zero_div, pyRound2_zero]
  · unfold calc_adhesive_bags
    rw [if_neg (not_le.mpr hacov), zero_div, pyRound_zero]
  · unfold calc_grout_bags
    rw [if_neg (not_le.mpr hgcov), zero_div, pyRound_zero]
  · unfold calc_levelling_bags
    rw [if_neg (not_le.mpr hlcov), zero_mul, zero_div, pyRound1_zero]

/-- C4 witness: `C4_zero_area` at the app defaults with area 0. -/
theorem C4_zero_area_witness :
    calc_tiles 0 10 600 600 = 0
    ∧ calc_primer_l 0 (13 / 2) = 0
    ∧ calc_adhesive_bags 0 5 = 0
    ∧ calc_grout_bags 0 16 = 0
    ∧ calc_levelling_bags 0 3 13 = 0 :=
  C4_zero_area 10 600 600 3 (13 / 2) 5 16 13 (by norm_num) (by norm_num)
    (by norm_num) (by norm_num) (by norm_num) (by norm_num) (by norm_num)

/-- C5: each calculator function is a total function of its numeric inputs,
and whenever the tile area or a coverage denominator is zero or negative the
guard makes it return 0 — the division never happens on that branch. -/
theorem C5_guards (area waste len w depth pcov acov gcov lcov : ℚ)
    (hta : (len / 1000) * (w / 1000) ≤ 0) (hpcov : pcov ≤ 0)
    (hacov : acov ≤ 0) (hgcov : gcov ≤ 0) (hlcov : lcov ≤ 0) :
    calc_tiles area waste len w = 0
    ∧ calc_primer_l area pcov = 0
    ∧ calc_adhesive_bags area acov = 0
    ∧ calc_grout_bags area gcov = 0
    ∧ calc_levelling_bags area depth lcov = 0 := by
  refine ⟨?_, ?_, ?_, ?_, ?_⟩
  · unfold calc_tiles
    rw [if_pos hta]
  · unfold calc_primer_l
    rw [if_pos hpcov]
  · unfold calc_adhesive_bags
    rw [if_pos hacov]
  · unfold calc_grout_bags
    rw [if_pos hgcov]
  · unfold calc_levelling_bags
    rw [if_pos hlcov]

/-- C5 witness: `C5_guards` with a zero tile length and zero coverages. -/
theorem C5_guards_witness :
    calc_tiles 50 10 0 600 = 0
    ∧ calc_primer_l 50 0 = 0
    ∧ calc_adhesive_bags 50 0 = 0
    ∧ calc_grout_bags 50 0 = 0
    ∧ calc_levelling_bags 50 3 0 = 0 :=
  C5_guards 50 10 0 600 3 0 0 0 0 (by norm_num) (by norm_num) (by norm_num)
    (by norm_num) (by norm_num)

/-- C10: a negative average levelling depth is clamped to zero by
`max(0.0, avg_depth_mm)`, so for every area and positive coverage the
levelling bag count at a negative depth is 0 (in particular never
negative). -/
theorem C10_negative_depth (area depth cov : ℚ) (hcov : 0 < cov)
    (hdepth : depth < 0) :
    calc_levelling_bags area depth cov = 0
    ∧ 0 ≤ calc_levelling_bags area depth cov := by
  have hmax : pymax 0 depth = 0 := by
    unfold pymax
    rw [if_neg (not_lt.mpr (le_of_lt hdepth))]
  have h : calc_levelling_bags area depth cov = 0 := by
    unfold calc_levelling_bags
    rw [if_neg (not_le.mpr hcov), hmax, mul_zero, zero_div, pyRound1_zero]
  exact ⟨h, by rw [h]⟩

/-- C10 witness: `C10_negative_depth` at area -5, depth -2, coverage 13. -/
theorem C10_negative_depth_witness :
    calc_levelling_bags (-5) (-2) 13 = 0
    ∧ 0 ≤ calc_levelling_bags (-5) (-2) 13 :=
  C10_negative_depth (-5) (-2) 13 (by norm_num) (by norm_num)

-- ---------------------------------------------------------------------------
-- Claims about substrate handling, text normalization, rendering, uploads
-- ---------------------------------------------------------------------------

/-- C6 counterexample: with the configured defaults (depth 3 mm, levelling
coverage 13 m2*mm per bag) and area 20 m2, substrate "Concrete" — levelling
not requested, the depth field simply at its default — the app computes a
levelling bag count of 4.6, not 0; and the count for an anhydrite substrate
is identical, because the computation never reads the substrate. -/
theorem C6_concrete_nonzero :
    app_levelling_bags "Concrete" 20 default_levelling_depth_mm
        default_bag_coverage_m2_per_mm = 23 / 5
    ∧ (23 / 5 : ℚ) ≠ 0
    ∧ app_levelling_bags "Anhydrite screed" 20 default_levelling_depth_mm
          default_bag_coverage_m2_per_mm
      = app_levelling_bags "Concrete" 20 default_levelling_depth_mm
          default_bag_coverage_m2_per_mm := by
  refine ⟨by decide, by norm_num, rfl⟩

/-- C6 (amended): the levelling bag count does not depend on the substrate
category at all: `calc_levelling_bags` receives only the numeric sidebar
fields (area, depth, coverage), so any two substrate strings give the same
count, which for positive coverage equals
`round(area * max(0, depth) / coverage, 1)`. -/
theorem C6_substrate_independent (s1 s2 : String) (area depth cov : ℚ)
    (hcov : 0 < cov) :
    app_levelling_bags s1 area depth cov = app_levelling_bags s2 area depth cov
    ∧ app_levelling_bags s1 area depth cov
      = pyRound1 ((area * pymax 0 depth) / cov) := by
  refine ⟨rfl, ?_⟩
  unfold app_levelling_bags calc_levelling_bags
  rw [if_neg (not_le.mpr hcov)]

/-- C6 witness: `C6_substrate_independent` comparing "Concrete" with
"Anhydrite screed" at the defaults. -/
theorem C6_substrate_independent_witness :
    (app_levelling_bags "Concrete" 20 3 13
      = app_levelling_bags "Anhydrite screed" 20 3 13)
    ∧ app_levelling_bags "Concrete" 20 3 13
      = pyRound1 ((20 * pymax 0 3) / 13) :=
  C6_substrate_independent "Concrete" "Anhydrite screed" 20 3 13 (by norm_num)

/-- C7 counterexample: the euro sign is outside the latin-1 charset required
at `src/app.py` line 195 and is not a key of the replacement table, yet
`_to_ascii` passes it through unchanged — unsupported characters are not
dropped or replaced, and the normalized output need not encode in the
document charset. -/
theorem C7_euro_passes_through :
    to_ascii "€" = "€" ∧ encodesLatin1 (to_ascii "€") = false := by
  refine ⟨by decide, by decide⟩

set_option maxHeartbeats 1000000 in
/-- C7 (amended): `_to_ascii` substitutes exactly the listed punctuation
(dashes, bullet, smart quotes, ellipsis, multiplication sign, trademark,
registered, degree) with plain ASCII equivalents, and leaves every other
character — supported by the document charset or not — unchanged. -/
theorem C7_to_ascii_replacements (c : Char) (hc : c ∉ replacedChars) :
    asciiRepl c = String.singleton c
    ∧ to_ascii "—–•“”‘’…×™®°" = "---\x22\x22\x27\x27...x(TM)(R) degrees" := by
  refine ⟨?_, by decide⟩
  unfold asciiRepl
  split_ifs <;>
    first
      | rfl
      | (subst_vars; exact absurd (by decide) hc)

set_option maxHeartbeats 1000000 in
/-- C7 witness: `C7_to_ascii_replacements` at the letter a, which is not in
the replacement table and passes through. -/
theorem C7_to_ascii_replacements_witness :
    ('a' ∉ replacedChars)
    ∧ (asciiRepl 'a' = String.singleton 'a'
       ∧ to_ascii "—–•“”‘’…×™®°" = "---\x22\x22\x27\x27...x(TM)(R) degrees") :=
  ⟨by decide, C7_to_ascii_replacements 'a' (by decide)⟩

/-- A single unbroken 300-character token, as in the claimed example. -/
def longToken : String := String.mk (List.replicate 300 'a')

set_option maxRecDepth 4000 in
set_option maxHeartbeats 4000000 in
/-- C8 counterexample: for a row whose value is an unbroken 300-character
token, the renderer hands the token to the toolkit in one piece — no soft
break is inserted — and the `multi_cell` width parameter is 0 (rest of the
line), not any enforced minimum column width: the claimed mechanisms do not
exist in `row`. -/
theorem C8_no_soft_breaks :
    multiCellTexts (row "Project" (some longToken)) = [longToken]
    ∧ multiCellWidths (row "Project" (some longToken)) = [0] := by
  refine ⟨by decide, by decide⟩

/-- C8 (amended): the renderer itself never raises in the embedded model but
performs no token splitting and no minimum-column-width clamping: for every
label and value, `row` issues exactly four toolkit operations, and the
single `multi_cell` among them receives the normalized value verbatim with
width parameter 0 (extend to the right margin); wrapping of over-wide
tokens is delegated entirely to the external toolkit. -/
theorem C8_row_passthrough (label value : String) :
    (row label (some value)).length = 4
    ∧ multiCellTexts (row label (some value)) = [to_ascii value]
    ∧ multiCellWidths (row label (some value)) = [0] :=
  ⟨rfl, rfl, rfl⟩

theorem convertRGB_mode (img : Img) : (convertRGB img).mode = "RGB" := by
  unfold convertRGB
  split_ifs with h
  · exact h
  · rfl

/-- C9: uploads that fail to decode — including any upload whose truthy
media type contains "pdf", rejected before decoding — are silently skipped,
and each successfully decoded upload is embedded exactly once (the embed
list has one entry per decodable upload, in order), converted to RGB and
scaled to the fixed display width 160. -/
theorem C9_uploads_filter (decode : Upload → Option Img) (uploads : List Upload) :
    (∀ e ∈ addUploadedImages decode uploads, e.img.mode = "RGB" ∧ e.width = 160)
    ∧ (addUploadedImages decode uploads).length
      = (uploads.filter (fun u => (pilImageFromUpload decode u).isSome)).length
    ∧ (∀ u : Upload, u.type ≠ "" →
        strContains (strToLower u.type) "pdf" = true →
        pilImageFromUpload decode u = none) := by
  refine ⟨?_, ?_, ?_⟩
  · intro e he
    unfold addUploadedImages at he
    rw [List.mem_filterMap] at he
    obtain ⟨u, _, hu⟩ := he
    rw [Option.map_eq_some'] at hu
    obtain ⟨img, _, heq⟩ := hu
    subst heq
    exact ⟨convertRGB_mode img, rfl⟩
  · unfold addUploadedImages
    induction uploads with
    | nil => rfl
    | cons u rest ih =>
      rw [List.filterMap_cons, List.filter_cons]
      cases hdec : pilImageFromUpload decode u with
      | none => simpa [hdec] using ih
      | some img => simpa [hdec] using ih
  · intro u h1 h2
    unfold pilImageFromUpload
    have h1b : (u.type != "") = true := by simp [bne_iff_ne, h1]
    rw [h1b, h2]
    rfl

/-- Sample decode oracle for the C9 witness: only photo.png decodes, and to
a CMYK image. -/
def sampleDecode : Upload → Option Img :=
  fun u => if u.name = "photo.png" then some (Img.mk "CMYK" 7) else none

/-- Sample uploads for the C9 witness: a valid image, a pdf, a corrupt file. -/
def sampleUploads : List Upload :=
  [Upload.mk "image/png" "photo.png" [137, 80],
   Upload.mk "application/pdf" "plan.pdf" [37, 80],
   Upload.mk "image/png" "broken.png" [0]]

/-- C9 witness: at the samples, the decoded image is embedded (in RGB at
width 160, by `C9_uploads_filter`) and the pdf upload is rejected. -/
theorem C9_uploads_filter_witness :
    (Embedded.mk "photo.png" (Img.mk "RGB" 7) 160
      ∈ addUploadedImages sampleDecode sampleUploads)
    ∧ ((Embedded.mk "photo.png" (Img.mk "RGB" 7) 160).img.mode = "RGB"
       ∧ (Embedded.mk "photo.png" (Img.mk "RGB" 7) 160).width = 160)
    ∧ pilImageFromUpload sampleDecode (Upload.mk "application/pdf" "plan.pdf" [37, 80])
      = none := by
  have hmem : Embedded.mk "photo.png" (Img.mk "RGB" 7) 160
      ∈ addUploadedImages sampleDecode sampleUploads := by decide
  exact ⟨hmem, (C9_uploads_filter sampleDecode sampleUploads).1 _ hmem,
    (C9_uploads_filter sampleDecode sampleUploads).2.2 _ (by decide) (by decide)⟩

end
